import Mathlib

/-!
Verification of the notification-processing core of a reply bot
(`reply.py`): the thread-depth gate, the retry/backoff controller around
the thread-context fetch, the command processor with its authorization
check and target resolution, the reply-text sanitization, and the
mention-text extraction.  Each source function is embedded as an
executable Lean definition; effectful methods are embedded as functions
returning the list of external actions they perform (a trace of events)
together with an outcome (normal return, or a raised error that
propagates to the caller).
-/

namespace MstdnEbooks

/-- Configuration (`self.cfg`).  The recognized options the core reads:
`max_thread_length` (an integer threshold, embedded as `Int` since the
configuration file may hold any integer), `strip_paired_punctuation`,
`cw`, plus the mention-removal and paired-punctuation settings owned by
external collaborators (see `remove_mentions` and
`stripPairedPunctuation`). -/
structure Cfg where
  max_thread_length : Int
  strip_paired_punctuation : Bool
  paired_punct : List Char
  mentions : List String
  cw : Option String
  deriving DecidableEq

/-- `notification['account']`: the notifying account. -/
structure Account where
  id : String
  acct : String
  deriving DecidableEq

/-- `notification['status']`: the triggering status.  `in_reply_to_id`
is `None` (here `none`) when the mention is not a reply. -/
structure Status where
  id : String
  content : String
  in_reply_to_id : Option String
  deriving DecidableEq

/-- A mention notification as consumed from the stream. -/
structure Notif where
  account : Account
  status : Status
  deriving DecidableEq

/-- One ancestor post in a thread context: `post['id']` and
`post['account']['id']`. -/
structure Post where
  id : String
  account_id : String
  deriving DecidableEq

/-- A thread context as returned by `status_context`: the ordered list
of ancestor posts. -/
structure Ctx where
  ancestors : List Post
  deriving DecidableEq

/-- Embeds `ReplyBot.check_thread_length` (reply.py lines 52-61), the
loop body: `posts` is the running count of ancestors authored by the
bot (`self.me`); after every ancestor the count is compared against
`max_thread_length` and the function returns `true` as soon as the
comparison holds. -/
def check_thread_length_go (me : String) (maxLen : Int) (posts : Nat) :
    List Post → Bool
  | [] => false
  | p :: rest =>
    let posts := if p.account_id = me then posts + 1 else posts
    if maxLen ≤ (posts : Int) then true else
      check_thread_length_go me maxLen posts rest

/-- Embeds `ReplyBot.check_thread_length` (reply.py lines 52-61):
return whether the thread is too long to reply to. -/
def check_thread_length (me : String) (maxLen : Int) (context : Ctx) : Bool :=
  check_thread_length_go me maxLen 0 context.ancestors

/-- The number of posts in `l` authored by the bot's own account id. -/
def countBot (me : String) (l : List Post) : Nat :=
  (l.filter (fun p => p.account_id = me)).length

/-- The zero-width space U+200B inserted after every `@` by the
sanitization pass in reply.py line 87. -/
def zws : Char := '\u200B'

/-- Embeds Python `str.replace(pat, rep)`: non-overlapping
left-to-right replacement of every occurrence of `pat` by `rep`.
(Python's behavior on an empty pattern, interleaving the replacement
between characters, is not reproduced; this function is only applied
to configured mention strings, which are nonempty handles.) -/
def replaceSub (pat rep : List Char) : List Char → List Char
  | [] => []
  | c :: rest =>
    if h : pat ≠ [] ∧ pat.isPrefixOf (c :: rest) then
      rep ++ replaceSub pat rep (List.drop pat.length (c :: rest))
    else
      c :: replaceSub pat rep rest
termination_by l => l.length
decreasing_by
  all_goals simp only [List.length_drop, List.length_cons]
  · have h1 : 1 ≤ pat.length := List.length_pos.mpr h.1
    omega
  · omega

/-- Embeds `toot.replace("@", ...)` with the zero-width space
(reply.py line 87): since the pattern is the single character `@`, the
non-overlapping left-to-right replacement is exactly a character-wise
rewrite sending `@` to `@` + U+200B and every other character to
itself. -/
def replaceAtSign (s : List Char) : List Char :=
  s.foldr (fun c acc => if c = '@' then '@' :: zws :: acc else c :: acc) []

/-- Modelled from the spec: the `PAIRED_PUNCTUATION` removal pattern
referenced by reply.py line 86 is repository code missing from src
(reply.py neither defines nor imports that name).  Per the spec, when
configured this pass strips the characters matching the configured
paired-punctuation removal pattern. -/
def stripPairedPunctuation (cfg : Cfg) (s : List Char) : List Char :=
  s.filter (fun c => !(cfg.paired_punct.contains c))

/-- Modelled from the spec: `third_party.utils.remove_mentions`
(reply.py line 88) is an external collaborator missing from src; per
the spec it removes any configured mention strings from the text. -/
def remove_mentions (cfg : Cfg) (s : List Char) : List Char :=
  cfg.mentions.foldl (fun acc m => replaceSub m.data [] acc) s

/-- Embeds the reply-text sanitization of `ReplyBot.reply` (reply.py
lines 85-88): optional paired-punctuation strip, rewriting every `@` to
`@` followed by U+200B, then removal of configured mention strings. -/
def sanitize (cfg : Cfg) (toot : String) : String :=
  let t := if cfg.strip_paired_punctuation then
    stripPairedPunctuation cfg toot.data else toot.data
  let t := replaceAtSign t
  let t := remove_mentions cfg t
  String.mk t

/-- State machine for stripping markup: outside (`false`) or inside
(`true`) an HTML tag. -/
def stripMarkupGo : Bool → List Char → List Char
  | _, [] => []
  | false, c :: r =>
    if c = '<' then stripMarkupGo true r else c :: stripMarkupGo false r
  | true, c :: r =>
    if c = '>' then stripMarkupGo false r else stripMarkupGo true r

/-- Modelled from the spec: `third_party.utils.extract_post_content`
(reply.py line 93) is an external text-extraction collaborator, code
missing from src, that strips HTML/markup from the status content;
markup-free text passes through unchanged. -/
def extract_post_content (s : List Char) : List Char :=
  stripMarkupGo false s

/-- Embeds the substitution `re.sub` removing the pattern
`^@\S+\s` once (reply.py line 94): if the text starts with `@` followed
by at least one non-whitespace character and then one whitespace
character, the `@`, the maximal non-whitespace run after it, and
exactly one following whitespace character are removed; otherwise the
text is unchanged. -/
def removeLeadingMention (s : List Char) : List Char :=
  match s with
  | '@' :: rest =>
    match rest.takeWhile (fun c => !c.isWhitespace),
          rest.dropWhile (fun c => !c.isWhitespace) with
    | [], _ => s
    | _ :: _, _ :: tail => tail
    | _ :: _, [] => s
  | _ => s

/-- Embeds `ReplyBot.extract_toot` (reply.py lines 91-96): extract the
plain text, remove the initial mention, lowercase. -/
def extract_toot (toot : String) : String :=
  let text := extract_post_content toot.data
  let text := removeLeadingMention text
  let text := text.map Char.toLower
  String.mk text

/-- Embeds the dispatch test `content in {'pin', 'unpin'}`
(reply.py line 47). -/
def is_command (content : String) : Bool :=
  content == "pin" || content == "unpin"

/-- The error classes that can propagate out of a notification's
handling: `clientError` stands for any exception other than
`pleroma.BadResponse` escaping the context fetch (the spec's
non-retryable `ClientError`), `nameError` for Python's NameError on
the unbound `target_post_id` at reply.py line 75. -/
inductive Err
  | clientError
  | nameError
  deriving DecidableEq

/-- How a call returns: normally, or by raising an error that
propagates to the caller. -/
inductive Outcome
  | ok
  | raised (e : Err)
  deriving DecidableEq

/-- One external action or suspension performed while handling
notifications: a `status_context` fetch with its attempt number, a
backoff sleep, the diagnostic log line of reply.py line 39, a
reaction, a pin or unpin call, or a posted reply. -/
inductive Event
  | fetchCtx (postId : String) (attempt : Nat)
  | sleepFor (d : Nat)
  | reportFail (attempts : Nat)
  | react (postId : String) (glyph : Char)
  | pinCall (postId : String)
  | unpinCall (postId : String)
  | replyPost (statusId : String) (text : String) (cw : Option String)
  deriving DecidableEq

/-- The result of one `status_context` call: a thread context, a
transient server error (`pleroma.BadResponse`, the only class caught at
reply.py line 33), or any other, non-retryable error. -/
inductive FetchResult
  | ok (context : Ctx)
  | transient
  | clientErr
  deriving DecidableEq

/-- The result of a `pin`/`unpin` call: success, or a
`pleroma.BadRequest` carrying its error message. -/
inductive PinResult
  | ok
  | badRequest (msg : String)
  deriving DecidableEq

/-- The bot's session state and its external collaborators: the bot's
own id and follow set (reply.py lines 20-21), the configuration, and
oracles giving the outcome of each external call: `fetch pid n` is the
result of the n-th `status_context` attempt for post `pid`,
`pinOutcome`/`unpinOutcome` the result of pinning/unpinning a target,
and `gen` the text produced by the external generator
`utils.make_post` (reply.py line 84). -/
structure Env where
  me : String
  follows : List String
  cfg : Cfg
  fetch : String → Nat → FetchResult
  pinOutcome : String → PinResult
  unpinOutcome : String → PinResult
  gen : String

/-- The failure glyph reacted with at reply.py lines 66 and 78. -/
def failGlyph : Char := '❌'

/-- The success glyph reacted with at reply.py line 81. -/
def successGlyph : Char := '✅'

/-- Embeds the target-resolution loop of `ReplyBot.process_command`
(reply.py lines 70-72): scan the ancestors in order, overwriting
`target_post_id` with each post whose id equals the triggering
status's `in_reply_to_id`; `none` represents the variable never being
assigned. -/
def resolveTarget (context : Ctx) (irt : Option String) : Option String :=
  context.ancestors.foldl
    (fun acc post => if some post.id = irt then some post.id else acc) none

/-- Embeds `ReplyBot.process_command` (reply.py lines 63-81).  An
unauthorized account gets a single failure-glyph reaction and nothing
else.  Otherwise the target is resolved; reaching the pin/unpin call
with `target_post_id` never assigned raises NameError.  On
`pleroma.BadRequest` the task group launches a failure-glyph reaction
and an explanatory reply; on success a success-glyph reaction is
sent. -/
def process_command (env : Env) (context : Ctx) (notif : Notif)
    (command : String) : List Event × Outcome :=
  let post_id := notif.status.id
  if notif.account.id ∉ env.follows then
    ([Event.react post_id failGlyph], Outcome.ok)
  else
    match resolveTarget context notif.status.in_reply_to_id with
    | none => ([], Outcome.raised Err.nameError)
    | some target_post_id =>
      match (if command = "pin" then env.pinOutcome target_post_id
             else env.unpinOutcome target_post_id) with
      | PinResult.ok =>
        ([(if command = "pin" then Event.pinCall target_post_id
           else Event.unpinCall target_post_id),
          Event.react post_id successGlyph], Outcome.ok)
      | PinResult.badRequest msg =>
        ([(if command = "pin" then Event.pinCall target_post_id
           else Event.unpinCall target_post_id),
          Event.react post_id failGlyph,
          Event.replyPost post_id ("Error: " ++ msg) none], Outcome.ok)

/-- Embeds `ReplyBot.reply` (reply.py lines 83-89): generate, sanitize
and post the reply, with the configured content warning. -/
def reply (env : Env) (notif : Notif) : List Event × Outcome :=
  ([Event.replyPost notif.status.id (sanitize env.cfg env.gen) env.cfg.cw],
   Outcome.ok)

/-- Embeds the part of `ReplyBot.process_notification` after a
successful context fetch (reply.py lines 42-50): thread gate, mention
text extraction, and the branch between command processing and
replying. -/
def after_fetch (env : Env) (notif : Notif) (context : Ctx) :
    List Event × Outcome :=
  if check_thread_length env.me env.cfg.max_thread_length context then
    ([], Outcome.ok)
  else
    let content := extract_toot notif.status.content
    if is_command content then
      process_command env context notif content
    else
      reply env notif

/-- Embeds `ReplyBot.process_notification` (reply.py lines 25-50) with
its retry parameter.  The attempt counter is incremented before the
fetch; only `pleroma.BadResponse` (the transient server error) is
caught: while fewer than 3 attempts were made the handler sleeps
`2 ** retry_count` time units and recurses, after the 3rd it logs the
diagnostic line and returns normally; any other fetch error
propagates uncaught. -/
def process_notification_from (env : Env) (notif : Notif)
    (retry_count : Nat) : List Event × Outcome :=
  let post_id := notif.status.id
  let rc := retry_count + 1
  match env.fetch post_id rc with
  | FetchResult.ok context =>
    let rest := after_fetch env notif context
    (Event.fetchCtx post_id rc :: rest.1, rest.2)
  | FetchResult.transient =>
    if h : rc < 3 then
      let rest := process_notification_from env notif rc
      (Event.fetchCtx post_id rc :: Event.sleepFor (2 ^ rc) :: rest.1,
       rest.2)
    else
      ([Event.fetchCtx post_id rc, Event.reportFail rc], Outcome.ok)
  | FetchResult.clientErr =>
    ([Event.fetchCtx post_id rc], Outcome.raised Err.clientError)
termination_by 3 - retry_count
decreasing_by omega

/-- Embeds `ReplyBot.process_notification` called with its default
argument `retry_count=0` (reply.py line 23). -/
def process_notification (env : Env) (notif : Notif) :
    List Event × Outcome :=
  process_notification_from env notif 0

/-- Embeds the dispatcher loop of `ReplyBot.run` (reply.py lines
18-23), specialized to a finite prefix of the mention stream: each
notification is processed in stream order with no surrounding error
handler, so an error raised by one notification's handling ends the
loop. -/
def run (env : Env) : List Notif → List Event × Outcome
  | [] => ([], Outcome.ok)
  | n :: rest =>
    match process_notification env n with
    | (evs, Outcome.ok) =>
      let r := run env rest
      (evs ++ r.1, r.2)
    | (evs, Outcome.raised e) => (evs, Outcome.raised e)

/-- A configuration with paired-punctuation strip off and no
configured mention strings, used by the sanitization claims. -/
def cfgPlain : Cfg := ⟨3, false, [], [], none⟩

/-- Retry fixture: a notification whose thread context is fetched. -/
def notifRetry : Notif := ⟨⟨"u1", "u1"⟩, ⟨"pr", "hello there", none⟩⟩

/-- Retry fixture: the context returned on a successful fetch. -/
def ctxRetry : Ctx := ⟨[]⟩

/-- Retry fixture: every `status_context` attempt fails with the
transient server error. -/
def envRetryAll : Env :=
  ⟨"me", [], cfgPlain, fun _ _ => FetchResult.transient,
   fun _ => PinResult.ok, fun _ => PinResult.ok, "generated"⟩

/-- Retry fixture: the first `status_context` attempt fails with the
transient server error, every later one succeeds. -/
def envRetrySnd : Env :=
  ⟨"me", [], cfgPlain,
   fun _ n => match n with
     | 1 => FetchResult.transient
     | _ => FetchResult.ok ctxRetry,
   fun _ => PinResult.ok, fun _ => PinResult.ok, "generated"⟩

/-- Abort fixture: every `status_context` call fails with a
non-transient error. -/
def envAbort : Env :=
  ⟨"me", [], cfgPlain, fun _ _ => FetchResult.clientErr,
   fun _ => PinResult.ok, fun _ => PinResult.ok, "generated"⟩

/-- Abort fixture: the first notification of the stream. -/
def notifAbort1 : Notif := ⟨⟨"x", "x"⟩, ⟨"a1", "hello there", none⟩⟩

/-- Abort fixture: the second notification of the stream. -/
def notifAbort2 : Notif := ⟨⟨"y", "y"⟩, ⟨"b1", "hello there", none⟩⟩

/-- Crash fixture: the context fetch for post `"d1"` fails with a
non-transient error; every other fetch succeeds. -/
def envCrash : Env :=
  ⟨"me", [], cfgPlain,
   fun pid _ => if pid = "d1" then FetchResult.clientErr
                else FetchResult.ok ⟨[]⟩,
   fun _ => PinResult.ok, fun _ => PinResult.ok, "generated"⟩

/-- Crash fixture: the first notification (its fetch raises). -/
def notifCrash1 : Notif := ⟨⟨"x", "x"⟩, ⟨"d1", "hello there", none⟩⟩

/-- Crash fixture: the second notification (never reached). -/
def notifCrash2 : Notif := ⟨⟨"y", "y"⟩, ⟨"d2", "hello there", none⟩⟩

/-- Isolation fixture: all external calls succeed. -/
def envIso : Env :=
  ⟨"me", [], cfgPlain, fun _ _ => FetchResult.ok ⟨[]⟩,
   fun _ => PinResult.ok, fun _ => PinResult.ok, "generated"⟩

/-- Isolation fixture: the first notification of the stream. -/
def notifIso1 : Notif := ⟨⟨"x", "x"⟩, ⟨"w1", "hello there", none⟩⟩

/-- Isolation fixture: the second notification of the stream. -/
def notifIso2 : Notif := ⟨⟨"y", "y"⟩, ⟨"w2", "hello there", none⟩⟩

/-- Authorization fixture: the bot follows only account `"f1"`. -/
def envUnauth : Env :=
  ⟨"me", ["f1"], cfgPlain, fun _ _ => FetchResult.ok ⟨[]⟩,
   fun _ => PinResult.ok, fun _ => PinResult.ok, "generated"⟩

/-- Authorization fixture: a command notification from account
`"u9"`, which the bot does not follow. -/
def notifUnauth : Notif := ⟨⟨"u9", "u9"⟩, ⟨"pc", "@bot pin", some "t0"⟩⟩

/-- Authorization fixture: a thread context. -/
def ctxUnauth : Ctx := ⟨[⟨"t0", "z"⟩]⟩

/-- Target fixture: the bot follows account `"u8"`. -/
def envTarget : Env :=
  ⟨"me", ["u8"], cfgPlain, fun _ _ => FetchResult.ok ⟨[]⟩,
   fun _ => PinResult.ok, fun _ => PinResult.ok, "generated"⟩

/-- Target fixture: an authorized command notification replying to
post `"zz"`. -/
def notifTarget : Notif := ⟨⟨"u8", "u8"⟩, ⟨"pt", "@bot pin", some "zz"⟩⟩

/-- Target fixture: a context none of whose ancestors is post `"zz"`. -/
def ctxTarget : Ctx := ⟨[⟨"t1", "z"⟩, ⟨"t2", "z"⟩]⟩

/-- Extraction fixture: all external calls succeed; the bot's id is
not among the authors, so the thread gate stays open. -/
def envReplyPath : Env :=
  ⟨"me9", ["u9c"], cfgPlain, fun _ _ => FetchResult.ok ⟨[]⟩,
   fun _ => PinResult.ok, fun _ => PinResult.ok, "generated text"⟩

/-- Extraction fixture: a mention whose content is
`"@bot PIN this please"`. -/
def notifReplyPath : Notif :=
  ⟨⟨"u9c", "u9c"⟩, ⟨"p9", "@bot PIN this please", some "q"⟩⟩

/-- Extraction fixture: an empty thread context. -/
def ctxReplyPath : Ctx := ⟨[]⟩

theorem countBot_nil (me : String) : countBot me [] = 0 := rfl

theorem countBot_cons (me : String) (p : Post) (l : List Post) :
    countBot me (p :: l) =
      (if p.account_id = me then 1 else 0) + countBot me l := by
  by_cases h : p.account_id = me <;> simp [countBot, h, List.filter] <;> omega

/-- Characterization of the gate loop: starting from running count
`posts`, the loop returns `true` iff some nonempty prefix of the
remaining ancestors brings the running count to at least `maxLen`. -/
theorem check_thread_length_go_iff (me : String) (maxLen : Int) :
    ∀ (l : List Post) (posts : Nat),
      check_thread_length_go me maxLen posts l = true ↔
        ∃ k, 1 ≤ k ∧ k ≤ l.length ∧
          maxLen ≤ (posts : Int) + (countBot me (l.take k) : Int) := by
  intro l
  induction l with
  | nil =>
    intro posts
    simp [check_thread_length_go]
    omega
  | cons p rest ih =>
    intro posts
    by_cases hb : p.account_id = me
    · by_cases hstop : maxLen ≤ ((posts + 1 : Nat) : Int)
      · simp only [check_thread_length_go, hb, if_true, hstop]
        constructor
        · intro _
          refine ⟨1, le_refl 1, by simp, ?_⟩
          simp [countBot_cons, countBot_nil, hb]
          push_cast
          omega
        · intro _; trivial
      · simp only [check_thread_length_go, hb, if_true, if_neg hstop]
        rw [ih (posts + 1)]
        constructor
        · rintro ⟨k, hk1, hk2, hk3⟩
          refine ⟨k + 1, by omega, by simp; omega, ?_⟩
          simp [List.take, countBot_cons, hb]
          push_cast at hk3 ⊢
          omega
        · rintro ⟨k, hk1, hk2, hk3⟩
          match k, hk1 with
          | (j+1), _ =>
            simp at hk2
            rcases Nat.eq_zero_or_pos j with hj | hj
            · subst hj
              simp [List.take, countBot_cons, countBot_nil, hb] at hk3
              push_cast at hk3
              omega
            · refine ⟨j, by omega, by omega, ?_⟩
              simp [List.take, countBot_cons, hb] at hk3
              push_cast at hk3 ⊢
              omega
    · by_cases hstop : maxLen ≤ ((posts : Nat) : Int)
      · simp only [check_thread_length_go, hb, if_false, hstop, if_true]
        constructor
        · intro _
          refine ⟨1, le_refl 1, by simp, ?_⟩
          simp [countBot_cons, countBot_nil, hb]
          omega
        · intro _; trivial
      · simp only [check_thread_length_go, hb, if_false, if_neg hstop]
        rw [ih posts]
        constructor
        · rintro ⟨k, hk1, hk2, hk3⟩
          refine ⟨k + 1, by omega, by simp; omega, ?_⟩
          simp [List.take, countBot_cons, hb]
          omega
        · rintro ⟨k, hk1, hk2, hk3⟩
          match k, hk1 with
          | (j+1), _ =>
            simp at hk2
            rcases Nat.eq_zero_or_pos j with hj | hj
            · subst hj
              simp [List.take, countBot_cons, countBot_nil, hb] at hk3
              omega
            · refine ⟨j, by omega, by omega, ?_⟩
              simp [List.take, countBot_cons, hb] at hk3
              omega

/-- Claim C1: `check_thread_length` returns true if and only if,
scanning the context's ancestors in their given order, the running
count of ancestor posts whose author id equals the bot's own account id
reaches `max_thread_length` at some point of the scan (i.e. after some
nonempty prefix of the ancestors); otherwise it returns false. -/
theorem check_thread_length_spec (me : String) (maxLen : Int) (context : Ctx) :
    check_thread_length me maxLen context = true ↔
      ∃ k, 1 ≤ k ∧ k ≤ context.ancestors.length ∧
        maxLen ≤ (countBot me (context.ancestors.take k) : Int) := by
  rw [check_thread_length, check_thread_length_go_iff]
  simp

/-- Claim C10: the threshold comparison runs after every ancestor, not
only after ancestors authored by the bot, so for `max_thread_length ≤ 0`
the gate fires on any context with at least one ancestor (even when
none is authored by the bot) and stays quiet exactly on the empty
ancestor list. -/
theorem check_thread_length_nonpos (me : String) (maxLen : Int) (context : Ctx)
    (h : maxLen ≤ 0) :
    (context.ancestors ≠ [] → check_thread_length me maxLen context = true) ∧
    (context.ancestors = [] → check_thread_length me maxLen context = false) := by
  constructor
  · intro hne
    match hctx : context.ancestors with
    | [] => exact absurd hctx hne
    | p :: rest =>
      rw [check_thread_length, hctx]
      simp only [check_thread_length_go]
      by_cases hb : p.account_id = me <;> simp [hb] <;> omega
  · intro he
    rw [check_thread_length, he]
    rfl

/-- Witness for C10 at a concrete input: bot id `"42"`, threshold `0`,
one ancestor authored by someone else fires the gate; the empty context
does not. -/
theorem check_thread_length_nonpos_witness :
    check_thread_length "42" 0 ⟨[⟨"1", "7"⟩]⟩ = true ∧
    check_thread_length "42" 0 ⟨[]⟩ = false := by
  constructor
  · exact (check_thread_length_nonpos "42" 0 ⟨[⟨"1", "7"⟩]⟩ (by decide)).1
      (by decide)
  · exact (check_thread_length_nonpos "42" 0 ⟨[]⟩ (by decide)).2 rfl

theorem replaceAtSign_nil : replaceAtSign [] = [] := rfl

theorem replaceAtSign_cons (c : Char) (l : List Char) :
    replaceAtSign (c :: l) =
      if c = '@' then '@' :: zws :: replaceAtSign l
      else c :: replaceAtSign l := rfl

theorem sanitize_plain (cfg : Cfg) (s : String) (hm : cfg.mentions = [])
    (hp : cfg.strip_paired_punctuation = false) :
    sanitize cfg s = String.mk (replaceAtSign s.data) := by
  simp [sanitize, hm, hp, remove_mentions]

theorem replaceAtSign_length (l : List Char) :
    (replaceAtSign l).length = l.length + l.count '@' := by
  induction l with
  | nil => rfl
  | cons c rest ih =>
    rw [replaceAtSign_cons]
    by_cases hc : c = '@' <;>
      simp [hc, List.count_cons, ih] <;> omega

theorem replaceAtSign_count (l : List Char) :
    (replaceAtSign l).count '@' = l.count '@' := by
  induction l with
  | nil => rfl
  | cons c rest ih =>
    rw [replaceAtSign_cons]
    by_cases hc : c = '@'
    · have hz : zws ≠ '@' := by decide
      simp [hc, List.count_cons, hz, ih]
    · simp [hc, List.count_cons, ih]

theorem replaceAtSign_after_at (l : List Char) :
    ∀ i, (replaceAtSign l).get? i = some '@' →
      (replaceAtSign l).get? (i + 1) = some zws := by
  induction l with
  | nil => intro i h; simp [replaceAtSign_nil] at h
  | cons c rest ih =>
    intro i h
    by_cases hc : c = '@'
    · rw [replaceAtSign_cons, if_pos hc] at h ⊢
      match i with
      | 0 => rfl
      | 1 =>
        exfalso
        simp only [List.get?_cons_succ, List.get?_cons_zero] at h
        exact absurd (Option.some.inj h) (by decide)
      | (n + 2) =>
        simp only [List.get?_cons_succ] at h ⊢
        exact ih n h
    · rw [replaceAtSign_cons, if_neg hc] at h ⊢
      match i with
      | 0 =>
        exfalso
        simp only [List.get?_cons_zero] at h
        exact absurd (Option.some.inj h) hc
      | (n + 1) =>
        simp only [List.get?_cons_succ] at h ⊢
        exact ih n h

/-- Counterexample to claim C4 as stated: sanitization is not
idempotent.  On input `"hi @alice"` (with paired-punctuation strip off
and no configured mention strings) one application yields
`"hi @" ++ U+200B ++ "alice"`, whose surviving `@` gains a second
U+200B under a second application. -/
theorem sanitize_not_idempotent :
    sanitize cfgPlain (sanitize cfgPlain "hi @alice") ≠
      sanitize cfgPlain "hi @alice" := by
  decide

/-- Claim C4 (amended): for configurations with no mention strings and
the paired-punctuation strip off, sanitization is NOT idempotent on any
input containing `@` — each application inserts one more U+200B after
every `@` — but a single application does guarantee the second half of
the claim: every `@` in the output is immediately followed by the
zero-width space U+200B, so no raw unescaped `@` immediately followed
by a handle character survives. -/
theorem sanitize_escape_spec (cfg : Cfg) (s : String) (hm : cfg.mentions = [])
    (hp : cfg.strip_paired_punctuation = false) (h : '@' ∈ s.data) :
    sanitize cfg (sanitize cfg s) ≠ sanitize cfg s ∧
    ∀ i c, (sanitize cfg s).data.get? i = some '@' →
      (sanitize cfg s).data.get? (i + 1) = some c → c = zws := by
  have h1 : sanitize cfg s = String.mk (replaceAtSign s.data) :=
    sanitize_plain cfg s hm hp
  have h2 : sanitize cfg (sanitize cfg s) =
      String.mk (replaceAtSign (replaceAtSign s.data)) := by
    rw [h1, sanitize_plain cfg _ hm hp]
  constructor
  · rw [h2, h1]
    intro heq
    have hdata : replaceAtSign (replaceAtSign s.data) = replaceAtSign s.data :=
      congrArg String.data heq
    have hlen := congrArg List.length hdata
    rw [replaceAtSign_length, replaceAtSign_length, replaceAtSign_count]
      at hlen
    have hpos : 0 < s.data.count '@' := List.count_pos_iff_mem.mpr h
    omega
  · intro i c hat hc
    rw [h1] at hat hc
    have := replaceAtSign_after_at s.data i hat
    rw [this] at hc
    exact (Option.some.inj hc).symm

/-- Witness for the amended C4 at the concrete input `"hi @alice"`. -/
theorem sanitize_escape_spec_witness :
    (cfgPlain.mentions = [] ∧ cfgPlain.strip_paired_punctuation = false ∧
      '@' ∈ "hi @alice".data) ∧
    (sanitize cfgPlain (sanitize cfgPlain "hi @alice") ≠
        sanitize cfgPlain "hi @alice" ∧
      ∀ i c, (sanitize cfgPlain "hi @alice").data.get? i = some '@' →
        (sanitize cfgPlain "hi @alice").data.get? (i + 1) = some c →
          c = zws) :=
  ⟨⟨rfl, rfl, by decide⟩,
    sanitize_escape_spec cfgPlain "hi @alice" rfl rfl (by decide)⟩

/-- Claim C2: with a transient server error on every attempt, handling
a notification makes exactly 3 context-fetch calls with exactly two
intervening sleeps of 2 and 4 time units, then abandons the
notification with only the diagnostic report (no reply, no reaction);
with success on the 2nd attempt, exactly 2 fetch calls and one sleep of
duration 2 occur and the pipeline resumes on the fetched context. -/
theorem retry_backoff_spec (env1 env2 : Env) (notif : Notif) (context : Ctx)
    (h1 : ∀ n, env1.fetch notif.status.id n = FetchResult.transient)
    (h2 : env2.fetch notif.status.id 1 = FetchResult.transient)
    (h3 : env2.fetch notif.status.id 2 = FetchResult.ok context) :
    process_notification env1 notif =
      ([Event.fetchCtx notif.status.id 1, Event.sleepFor 2,
        Event.fetchCtx notif.status.id 2, Event.sleepFor 4,
        Event.fetchCtx notif.status.id 3, Event.reportFail 3],
       Outcome.ok) ∧
    process_notification env2 notif =
      (Event.fetchCtx notif.status.id 1 :: Event.sleepFor 2 ::
        Event.fetchCtx notif.status.id 2 ::
          (after_fetch env2 notif context).1,
       (after_fetch env2 notif context).2) := by
  constructor
  · simp [process_notification, process_notification_from, h1]
  · simp [process_notification, process_notification_from, h2, h3]

/-- Witness for C2 at concrete fixtures: all-transient and
success-on-2nd-attempt fetch oracles for post `"pr"`. -/
theorem retry_backoff_spec_witness :
    ((∀ n, envRetryAll.fetch notifRetry.status.id n =
        FetchResult.transient) ∧
      envRetrySnd.fetch notifRetry.status.id 1 = FetchResult.transient ∧
      envRetrySnd.fetch notifRetry.status.id 2 = FetchResult.ok ctxRetry) ∧
    (process_notification envRetryAll notifRetry =
      ([Event.fetchCtx notifRetry.status.id 1, Event.sleepFor 2,
        Event.fetchCtx notifRetry.status.id 2, Event.sleepFor 4,
        Event.fetchCtx notifRetry.status.id 3, Event.reportFail 3],
       Outcome.ok) ∧
     process_notification envRetrySnd notifRetry =
      (Event.fetchCtx notifRetry.status.id 1 :: Event.sleepFor 2 ::
        Event.fetchCtx notifRetry.status.id 2 ::
          (after_fetch envRetrySnd notifRetry ctxRetry).1,
       (after_fetch envRetrySnd notifRetry ctxRetry).2)) :=
  ⟨⟨fun _ => rfl, rfl, rfl⟩,
    retry_backoff_spec envRetryAll envRetrySnd notifRetry ctxRetry
      (fun _ => rfl) rfl rfl⟩

/-- Counterexample to claim C7 as stated: a non-transient fetch error
produces NO diagnostic report, and the rest of the system does NOT
continue — the raised error ends the dispatcher loop, so the second
notification of the stream is never fetched. -/
theorem client_error_abort_cex :
    process_notification envAbort notifAbort1 =
      ([Event.fetchCtx "a1" 1], Outcome.raised Err.clientError) ∧
    (∀ k, Event.reportFail k ∉ (process_notification envAbort notifAbort1).1) ∧
    (run envAbort [notifAbort1, notifAbort2]).2 =
      Outcome.raised Err.clientError ∧
    Event.fetchCtx "b1" 1 ∉ (run envAbort [notifAbort1, notifAbort2]).1 := by
  have hp : process_notification envAbort notifAbort1 =
      ([Event.fetchCtx "a1" 1], Outcome.raised Err.clientError) := by
    simp [process_notification, process_notification_from, envAbort,
      notifAbort1]
  have hr : run envAbort [notifAbort1, notifAbort2] =
      ([Event.fetchCtx "a1" 1], Outcome.raised Err.clientError) := by
    rw [run, hp]
  refine ⟨hp, ?_, ?_, ?_⟩
  · intro k
    rw [hp]
    simp
  · rw [hr]
  · rw [hr]
    decide

/-- Claim C7 (amended): a context fetch failing with any error class
other than the transient server error is not retried — no sleep, no
further fetch call — and the notification's handling stops with no
reply, no reaction and no diagnostic report: the error propagates
uncaught to the dispatcher loop (which therefore does not continue;
see C3). -/
theorem client_error_no_retry (env : Env) (notif : Notif)
    (h : env.fetch notif.status.id 1 = FetchResult.clientErr) :
    process_notification env notif =
      ([Event.fetchCtx notif.status.id 1], Outcome.raised Err.clientError) := by
  simp [process_notification, process_notification_from, h]

/-- Witness for the amended C7 at a concrete fixture. -/
theorem client_error_no_retry_witness :
    envAbort.fetch notifAbort1.status.id 1 = FetchResult.clientErr ∧
    process_notification envAbort notifAbort1 =
      ([Event.fetchCtx notifAbort1.status.id 1],
       Outcome.raised Err.clientError) :=
  ⟨rfl, client_error_no_retry envAbort notifAbort1 rfl⟩

theorem process_command_no_fetch (env : Env) (context : Ctx) (notif : Notif)
    (command : String) (pid : String) (a : Nat) :
    Event.fetchCtx pid a ∉ (process_command env context notif command).1 := by
  rw [process_command]
  split
  · simp
  · split
    · simp
    · split <;> split <;> simp

theorem after_fetch_no_fetch (env : Env) (notif : Notif) (context : Ctx)
    (pid : String) (a : Nat) :
    Event.fetchCtx pid a ∉ (after_fetch env notif context).1 := by
  simp only [after_fetch]
  split
  · simp
  · split
    · exact process_command_no_fetch env context notif _ pid a
    · simp [reply]

/-- Every branch of the handler emits its context-fetch event first. -/
theorem pnf_head (env : Env) (notif : Notif) (retry_count : Nat) :
    ∃ t, (process_notification_from env notif retry_count).1 =
      Event.fetchCtx notif.status.id (retry_count + 1) :: t := by
  rw [process_notification_from]
  cases h : env.fetch notif.status.id (retry_count + 1)
  · exact ⟨_, rfl⟩
  · by_cases hrc : retry_count + 1 < 3
    · simp only [hrc, dif_pos]
      exact ⟨_, rfl⟩
    · simp only [hrc, dif_neg]
      exact ⟨_, rfl⟩
  · exact ⟨_, rfl⟩

theorem pnf_fetch_pid_aux (env : Env) (notif : Notif) :
    ∀ (b rc : Nat), 3 - rc ≤ b → ∀ pid a,
      Event.fetchCtx pid a ∈ (process_notification_from env notif rc).1 →
        pid = notif.status.id := by
  intro b
  induction b with
  | zero =>
    intro rc hb pid a h
    rw [process_notification_from] at h
    cases hf : env.fetch notif.status.id (rc + 1) <;> rw [hf] at h
    · simp at h
      rcases h with h | h
      · exact h.1
      · exact absurd h (after_fetch_no_fetch env notif _ pid a)
    · have hrc : ¬ (rc + 1 < 3) := by omega
      simp only [hrc, dif_neg] at h
      simp at h
      exact h.1
    · simp at h
      exact h.1
  | succ b ih =>
    intro rc hb pid a h
    rw [process_notification_from] at h
    cases hf : env.fetch notif.status.id (rc + 1) <;> rw [hf] at h
    · simp at h
      rcases h with h | h
      · exact h.1
      · exact absurd h (after_fetch_no_fetch env notif _ pid a)
    · by_cases hrc : rc + 1 < 3
      · simp only [hrc, dif_pos] at h
        simp at h
        rcases h with h | h
        · exact h.1
        · exact ih (rc + 1) (by omega) pid a h
      · simp only [hrc, dif_neg] at h
        simp at h
        exact h.1
    · simp at h
      exact h.1

/-- Every context-fetch event in a notification's trace carries that
notification's own status id. -/
theorem pnf_fetch_pid (env : Env) (notif : Notif) (rc : Nat) (pid : String)
    (a : Nat)
    (h : Event.fetchCtx pid a ∈ (process_notification_from env notif rc).1) :
    pid = notif.status.id :=
  pnf_fetch_pid_aux env notif (3 - rc) rc (le_refl _) pid a h

/-- Counterexample to claim C3 as stated: an error raised while
handling the first notification is NOT contained — the dispatcher loop
ends with the raised error and the second notification of the stream is
never processed (its context is never fetched). -/
theorem dispatcher_crash_cex :
    (run envCrash [notifCrash1, notifCrash2]).2 =
      Outcome.raised Err.clientError ∧
    Event.fetchCtx "d2" 1 ∉ (run envCrash [notifCrash1, notifCrash2]).1 := by
  have hp : process_notification envCrash notifCrash1 =
      ([Event.fetchCtx "d1" 1], Outcome.raised Err.clientError) := by
    simp [process_notification, process_notification_from, envCrash,
      notifCrash1]
  have h : run envCrash [notifCrash1, notifCrash2] =
      ([Event.fetchCtx "d1" 1], Outcome.raised Err.clientError) := by
    rw [run, hp]
  rw [h]
  refine ⟨rfl, ?_⟩
  decide

/-- Claim C3 (amended): the dispatcher loop has no error handler, so an
error raised while handling one notification ends the loop.  For a
stream of two notifications with distinct status ids, the second one is
processed (its context fetch occurs) if and only if the first one's
handling returned normally. -/
theorem dispatcher_isolation_iff (env : Env) (n1 n2 : Notif)
    (hne : n1.status.id ≠ n2.status.id) :
    (Event.fetchCtx n2.status.id 1 ∈ (run env [n1, n2]).1) ↔
      (process_notification env n1).2 = Outcome.ok := by
  rw [run]
  rcases hp : process_notification env n1 with ⟨evs, o⟩
  cases o with
  | ok =>
    simp only []
    constructor
    · intro _; trivial
    · intro _
      rcases pnf_head env n2 0 with ⟨t, ht⟩
      rw [run, run]
      rcases hp2 : process_notification env n2 with ⟨evs2, o2⟩
      have hevs2 : evs2 = Event.fetchCtx n2.status.id 1 :: t := by
        rw [process_notification] at hp2
        rw [hp2] at ht
        exact ht
      cases o2 <;> simp [hevs2]
  | raised e =>
    simp only []
    constructor
    · intro hmem
      exfalso
      have : n2.status.id = n1.status.id := by
        apply pnf_fetch_pid env n1 0 _ 1
        rw [process_notification] at hp
        rw [hp]
        exact hmem
      exact hne this.symm
    · intro hok
      exact absurd hok (by simp)

/-- Witness for the amended C3 at concrete fixtures with distinct
status ids. -/
theorem dispatcher_isolation_iff_witness :
    notifIso1.status.id ≠ notifIso2.status.id ∧
    ((Event.fetchCtx notifIso2.status.id 1 ∈
        (run envIso [notifIso1, notifIso2]).1) ↔
      (process_notification envIso notifIso1).2 = Outcome.ok) :=
  ⟨by decide, dispatcher_isolation_iff envIso notifIso1 notifIso2 (by decide)⟩

/-- Claim C6: a command notification from an account the bot does not
follow results in exactly one reaction call (the failure glyph, on the
triggering post), zero pin/unpin calls and zero replies, regardless of
which command was requested. -/
theorem unauthorized_command_spec (env : Env) (context : Ctx) (notif : Notif)
    (command : String) (hc : command = "pin" ∨ command = "unpin")
    (h : notif.account.id ∉ env.follows) :
    process_command env context notif command =
      ([Event.react notif.status.id failGlyph], Outcome.ok) := by
  rw [process_command]
  simp [h]

/-- Witness for C6 at a concrete fixture: account `"u9"` is not
followed, so its `pin` command yields only the failure reaction. -/
theorem unauthorized_command_spec_witness :
    (("pin" = "pin" ∨ ("pin" : String) = "unpin") ∧
      notifUnauth.account.id ∉ envUnauth.follows) ∧
    process_command envUnauth ctxUnauth notifUnauth "pin" =
      ([Event.react notifUnauth.status.id failGlyph], Outcome.ok) :=
  ⟨⟨Or.inl rfl, by decide⟩,
    unauthorized_command_spec envUnauth ctxUnauth notifUnauth "pin"
      (Or.inl rfl) (by decide)⟩

theorem resolveTarget_eq_none (context : Ctx) (irt : Option String)
    (hnone : ∀ p ∈ context.ancestors, some p.id ≠ irt) :
    resolveTarget context irt = none := by
  rw [resolveTarget]
  have hgen : ∀ (l : List Post) (acc : Option String),
      (∀ p ∈ l, some p.id ≠ irt) →
      l.foldl (fun acc post =>
        if some post.id = irt then some post.id else acc) acc = acc := by
    intro l
    induction l with
    | nil => intro acc _; rfl
    | cons p rest ih =>
      intro acc hall
      rw [List.foldl_cons, if_neg (hall p (by simp))]
      exact ih acc (fun q hq => hall q (by simp [hq]))
  exact hgen context.ancestors none hnone

/-- Claim C8: for an authorized command notification whose
`in_reply_to_id` matches no ancestor's post id, target resolution
yields no target (`target_post_id` is never assigned) and the code
proceeds to the pin/unpin call with the variable undefined — embedded
as the raised NameError — so the command cannot complete with a
well-defined target. -/
theorem unresolved_target_spec (env : Env) (context : Ctx) (notif : Notif)
    (command : String) (hc : command = "pin" ∨ command = "unpin")
    (hauth : notif.account.id ∈ env.follows)
    (hnone : ∀ p ∈ context.ancestors,
      some p.id ≠ notif.status.in_reply_to_id) :
    resolveTarget context notif.status.in_reply_to_id = none ∧
    process_command env context notif command =
      ([], Outcome.raised Err.nameError) := by
  have hres := resolveTarget_eq_none context notif.status.in_reply_to_id hnone
  refine ⟨hres, ?_⟩
  rw [process_command]
  simp [hauth, hres]

/-- Witness for C8 at a concrete fixture: the followed account `"u8"`
sends `pin` as a reply to post `"zz"`, which matches no ancestor. -/
theorem unresolved_target_spec_witness :
    ((("pin" : String) = "pin" ∨ ("pin" : String) = "unpin") ∧
      notifTarget.account.id ∈ envTarget.follows ∧
      (∀ p ∈ ctxTarget.ancestors,
        some p.id ≠ notifTarget.status.in_reply_to_id)) ∧
    (resolveTarget ctxTarget notifTarget.status.in_reply_to_id = none ∧
      process_command envTarget ctxTarget notifTarget "pin" =
        ([], Outcome.raised Err.nameError)) :=
  ⟨⟨Or.inl rfl, by decide, by decide⟩,
    unresolved_target_spec envTarget ctxTarget notifTarget "pin"
      (Or.inl rfl) (by decide) (by decide)⟩

/-- Claim C9: extraction lowercases the extracted content and removes
one leading mention token, so raw content `"@bot PIN this please"`
yields `"pin this please"`; command dispatch requires exact equality
with `"pin"` or `"unpin"`, so this text does not trigger the command
path and the pipeline falls through to the reply path. -/
theorem extract_toot_reply_path :
    extract_toot "@bot PIN this please" = "pin this please" ∧
    is_command (extract_toot "@bot PIN this please") = false ∧
    after_fetch envReplyPath notifReplyPath ctxReplyPath =
      reply envReplyPath notifReplyPath := by
  refine ⟨by decide, by decide, by decide⟩

end MstdnEbooks
